import Mathlib

/-!
Verification development for the weni-tools-utils repository.

Shallow embedding of the pure logic of `src/weni_utils/tools/client.py`,
`stock.py`, `orders.py`, and the plugins `regionalization.py` and `capi.py`.
HTTP calls are modelled by passing the outcome of the call as an explicit
parameter (`Option`/`Except`); Python dicts are modelled as association
lists in insertion order, and Python truthiness of strings and lists is
made explicit.
-/

namespace WeniUtils

/-! ## Character-list string helpers (Python `startswith`, `endswith`, `in`) -/

/-- Tests whether the first list of characters starts the second one. -/
def isPre : List Char → List Char → Bool
  | [], _ => true
  | _ :: _, [] => false
  | a :: as, b :: bs => a == b && isPre as bs

/-- Python substring test `needle in hay` on character lists. -/
def hasSub (needle : List Char) : List Char → Bool
  | [] => needle.isEmpty
  | c :: t => isPre needle (c :: t) || hasSub needle t

/-- Python `s.startswith(pre)` for strings. -/
def strStartsWith (s pre : String) : Bool := isPre pre.toList s.toList

/-- Python `s.endswith(suf)` for strings. -/
def strEndsWith (s suf : String) : Bool := isPre suf.toList.reverse s.toList.reverse

/-- Python `s.rstrip("/")`: removes every trailing slash. -/
def rstripSlashes (s : String) : String :=
  String.mk ((s.toList.reverse.dropWhile (fun c => c == '/')).reverse)

/-- Python truthiness of an optional string (`None` and `""` are falsy). -/
def strTruthy (o : Option String) : Bool := !(o.getD "").isEmpty

/-- Python `s.lower()` (character-wise; the strings compared by this code
are ASCII). -/
def strToLower (s : String) : String := String.mk (s.toList.map Char.toLower)

/-! ## JSON values and Python `json.dumps`

Model of the JSON universe manipulated by `stock.py` and `client.py`,
with the default `json.dumps` serialization (separators `", "` and
`": "`, `ensure_ascii=True`). Numbers are restricted to integers, which
is all the size-cap logic of `limit_payload_size` needs. -/

inductive Json where
  | null
  | bool (b : Bool)
  | int (n : Int)
  | str (s : String)
  | arr (elems : List Json)
  | obj (fields : List (String × Json))

/-- Lowercase hexadecimal digit. -/
def hexDigit (n : Nat) : Char :=
  if n < 10 then Char.ofNat (48 + n) else Char.ofNat (87 + n)

/-- Four lowercase hex digits, as used by the `\uXXXX` escapes of `json.dumps`. -/
def hex4 (n : Nat) : List Char :=
  [hexDigit (n / 4096 % 16), hexDigit (n / 256 % 16), hexDigit (n / 16 % 16), hexDigit (n % 16)]

/-- Escape of one character under `json.dumps` with `ensure_ascii=True`:
everything outside the printable ASCII range `0x20`-`0x7e` is written as
`\uXXXX` (a surrogate pair above `0xFFFF`). -/
def escapeChar (c : Char) : List Char :=
  if c = '"' then ['\\', '"']
  else if c = '\\' then ['\\', '\\']
  else if c = '\n' then ['\\', 'n']
  else if c = '\t' then ['\\', 't']
  else if c = '\r' then ['\\', 'r']
  else if c.toNat = 8 then ['\\', 'b']
  else if c.toNat = 12 then ['\\', 'f']
  else if c.toNat < 32 || 126 < c.toNat then
    if c.toNat < 65536 then '\\' :: 'u' :: hex4 c.toNat
    else
      let v := c.toNat - 65536
      ('\\' :: 'u' :: hex4 (55296 + v / 1024)) ++ ('\\' :: 'u' :: hex4 (56320 + v % 1024))
  else [c]

/-- Serialized form of a JSON string literal. -/
def escapeStr (s : String) : String :=
  "\"" ++ String.mk ((s.toList.map escapeChar).flatten) ++ "\""

mutual

/-- Python `json.dumps` with its default options. -/
def dumps : Json → String
  | .null => "null"
  | .bool b => if b then "true" else "false"
  | .int n => toString n
  | .str s => escapeStr s
  | .arr xs => "[" ++ dumpsList xs ++ "]"
  | .obj kvs => "\x7b" ++ dumpsObj kvs ++ "\x7d"

/-- Comma-separated serialization of array elements. -/
def dumpsList : List Json → String
  | [] => ""
  | [x] => dumps x
  | x :: y :: rest => dumps x ++ ", " ++ dumpsList (y :: rest)

/-- Comma-separated serialization of object entries. -/
def dumpsObj : List (String × Json) → String
  | [] => ""
  | [(k, v)] => escapeStr k ++ ": " ++ dumps v
  | (k, v) :: e :: rest => escapeStr k ++ ": " ++ dumps v ++ ", " ++ dumpsObj (e :: rest)

end

/-! ## StockManager.limit_payload_size (stock.py, lines 268-295)

The products mapping is modelled as an association list in dict insertion
order (the names are unique since they are the keys of a Python dict).
`json.dumps` of the wrapper list and its UTF-8 byte count (the dumps
output is pure ASCII, so the byte count is the character count), and the
`while` loop popping products from the tail. -/

/-- The `product_list` wrapper built by `limit_payload_size`:
one `{"product_name": ..., "product_data": ...}` object per product. -/
def wrapProducts (products : List (String × Json)) : Json :=
  Json.arr (products.map fun np => Json.obj
    [("product_name", Json.str np.1), ("product_data", np.2)])

/-- Length in bytes of `json.dumps(product_list).encode("utf-8")`. -/
def payloadBytes (products : List (String × Json)) : Nat :=
  (dumps (wrapProducts products)).length

/-- The `while size_kb > max_size_kb and product_list` loop of
`limit_payload_size`: pops the last product while the serialized size
exceeds `max_size_kb` kilobytes (`size_kb = bytes / 1024`, so the
comparison is `bytes > 1024 * max_size_kb`). -/
def limitPayloadLoop (max_size_kb : Nat) (ps : List (String × Json)) : List (String × Json) :=
  if h : 1024 * max_size_kb < payloadBytes ps ∧ ps.isEmpty = false then
    limitPayloadLoop max_size_kb ps.dropLast
  else ps
termination_by ps.length
decreasing_by
  simp only [List.length_dropLast]
  have hne : ps ≠ [] := by
    intro hnil
    rw [hnil] at h
    simp at h
  exact Nat.sub_lt (List.length_pos.mpr hne) Nat.one_pos

/-- `StockManager.limit_payload_size`: rebuilding the dict from the kept
wrapper entries returns exactly the kept association list (names are
unique dict keys). -/
def limit_payload_size (products : List (String × Json)) (max_size_kb : Nat) : List (String × Json) :=
  limitPayloadLoop max_size_kb products

/-! ## VTEXClient.batch_simulation (client.py, lines 211-268)

Only the request-building part (lines 234-245) is deterministic code; the
HTTP response handling picks the per-SKU simulation with the highest
quantity and is not needed by the claims. -/

/-- One item of the `batch_simulation` request payload. -/
structure BatchSimItem where
  id : String
  quantity : Nat
  seller : String
deriving DecidableEq

/-- The per-seller quantity computed by `batch_simulation`. -/
def quantityPerSeller (quantity : Nat) (numSellers maxPerSeller maxTotal : Nat) : Nat :=
  if 1 < numSellers then
    min (min (quantity * numSellers) maxTotal / numSellers) maxPerSeller
  else
    min quantity maxPerSeller

/-- The `items` list of the `batch_simulation` request: one entry per
seller, each requesting `quantityPerSeller`. -/
def batchSimulationItems (sku_id : String) (quantity : Nat) (sellers : List String)
    (maxPerSeller maxTotal : Nat) : List BatchSimItem :=
  sellers.map fun seller =>
    { id := sku_id
      quantity := quantityPerSeller quantity sellers.length maxPerSeller maxTotal
      seller := seller }

/-! ## VTEXClient.cart_simulation (client.py, lines 181-209)

The HTTP call is modelled by its outcome: `some body` for a 2xx response
with parsed JSON `body`, `none` for any `requests.RequestException`
(timeout, transport error, or the non-2xx raised by
`raise_for_status`). -/

/-- The request payload of `cart_simulation`: `postalCode` is added only
when the optional postal code is truthy. -/
def cartSimulationPayload (items : List Json) (country : String)
    (postal_code : Option String) : Json :=
  Json.obj ([("items", Json.arr items), ("country", Json.str country)] ++
    (if strTruthy postal_code then [("postalCode", Json.str (postal_code.getD ""))] else []))

/-- `VTEXClient.cart_simulation`: returns the request payload it posts and
the value handed back to the caller. On failure it returns the literal
`{"items": []}`; no exception escapes (the function is total). -/
def cart_simulation (items : List Json) (country : String) (postal_code : Option String)
    (response : Option Json) : Json × Json :=
  (cartSimulationPayload items country postal_code,
   match response with
   | some body => body
   | none => Json.obj [("items", Json.arr [])])

/-! ## VTEXClient.get_orders_by_document (client.py, lines 393-435)

A response body is modelled as its optional `"list"` entry plus the
number of its other keys; `none` for the whole response means the call
raised a `requests.RequestException`. The function returns the merged
body together with the list of request URLs it issued (relative to the
base URL). -/

/-- A parsed orders response: the `"list"` key (if present) and the count
of its other keys. -/
structure OrdersResp where
  list : Option (List Json)
  extra : Nat

/-- URL of the complete-orders request. -/
def completeOrdersUrl (document : String) : String :=
  "/api/oms/pvt/orders?q=" ++ document

/-- URL of the second orders request, which always carries the
`incompleteOrders` query parameter rendered from the flag. -/
def incompleteOrdersUrl (document : String) (incomplete_orders : Bool) : String :=
  "/api/oms/pvt/orders?q=" ++ document ++ "&incompleteOrders=" ++
    (if incomplete_orders then "true" else "false")

/-- `VTEXClient.get_orders_by_document`: early `{"list": []}` on an empty
document; otherwise one complete-orders call (failure degrades to
`{"list": []}`) followed unconditionally by the `incompleteOrders` call,
whose `"list"` (when present) is appended to the first body's list. -/
def get_orders_by_document (document : String) (incomplete_orders : Bool)
    (response : Option OrdersResp) (response_incomplete : Option OrdersResp) :
    OrdersResp × List String :=
  if document = "" then ({ list := some [], extra := 0 }, [])
  else
    let orders_data : OrdersResp :=
      match response with
      | some r => r
      | none => { list := some [], extra := 0 }
    let merged : OrdersResp :=
      match response_incomplete with
      | some r2 =>
        match r2.list with
        | some l2 => { orders_data with list := some (orders_data.list.getD [] ++ l2) }
        | none => orders_data
      | none => orders_data
    (merged, [completeOrdersUrl document, incompleteOrdersUrl document incomplete_orders])

/-- The list contributed by one of the two orders calls under the claim
vocabulary: a failed call, or a body without a `"list"` key, contributes
the empty list. -/
def ordersContribution (response : Option OrdersResp) : List Json :=
  match response with
  | some r => r.list.getD []
  | none => []

/-! ## VTEXClient.__init__ URL validation (client.py, lines 82-115) -/

/-- `VTEXClient._validate_base_url_and_store_url`, applied to the
already-`rstrip`-ped URLs held in `self`. -/
def validate_base_url_and_store_url (base_url store_url : String) : Bool :=
  if base_url = "" || store_url = "" then false
  else if !(strStartsWith base_url "https://") || !(strStartsWith store_url "https://") then
    false
  else if !(strEndsWith base_url ".vtexcommercestable.com.br" || strEndsWith base_url "myvtex.com") then
    false
  else true

/-- `VTEXClient.__init__`: strips trailing slashes, validates, and either
returns the stored `(base_url, store_url)` pair or fails
(`none` models the raised `ValueError`). -/
def vtexClientInit (base_url store_url : String) : Option (String × String) :=
  let b := rstripSlashes base_url
  let s := rstripSlashes store_url
  if validate_base_url_and_store_url b s then some (b, s) else none

/-- Modelled from the claim wording: the host of an HTTPS URL, i.e. the
characters between `https://` and the first `/` after it. -/
def urlHost (u : String) : String :=
  if strStartsWith u "https://" then
    String.mk ((u.toList.drop 8).takeWhile (fun c => c ≠ '/'))
  else ""

/-! ## StockManager simple-strategy stock check (stock.py)

Variations, products and flattened SKU entries are Python dicts; the
fields the stock code reads or writes are modelled explicitly, the
remaining keys as one opaque `Nat` payload. The seven keys that
`filter_products_with_stock` copies into `stock_info` are grouped in
`StockAnnot`: the flattened entries of the simple strategy carry none of
them (`annot = none`), so every `.get` falls back to its default. -/

/-- The seven stock-annotation fields recorded in `stock_info`, with the
defaults used by `.get` when the key is absent. -/
structure StockAnnot where
  measurementUnit : String := ""
  unitMultiplier : Int := 1
  deliveryType : String := ""
  sellerId : String := ""
  available_quantity : Int := 0
  minQuantity : Option Int := none
  valueAtacado : Option Int := none
deriving DecidableEq

/-- A variation dict of the structured products: its `sku_id` (absent key
modelled as `none`), its other keys (opaque), and the stock-annotation
keys when present. -/
structure Variation where
  sku_id : Option String
  vdata : Nat
  annot : Option StockAnnot := none
deriving DecidableEq

/-- A product dict: its `variations` list and its other keys (opaque). -/
structure Product where
  variations : List Variation
  pdata : Nat
deriving DecidableEq

/-- A flattened SKU entry built by `_flatten_products_to_skus`: the
variation's `sku_id`, the copied descriptive keys (opaque), and no
stock-annotation keys. -/
structure SkuDetail where
  sku_id : Option String
  sdata : Nat
  annot : Option StockAnnot := none
deriving DecidableEq

/-- An item of the cart-simulation result, as read by
`_select_available_products` (`item.get("id")`,
`item.get("availability", "")`). -/
structure SimItem where
  id : Option String
  availability : Option String
deriving DecidableEq

/-- The cart-simulation result (`simulation_result.get("items", [])`). -/
structure SimulationResult where
  items : List SimItem
deriving DecidableEq

/-- `StockManager._flatten_products_to_skus`: one SKU entry per variation
of each product, in order; the flattened entries carry no
stock-annotation keys. -/
def flattenProductsToSkus (products : List (String × Product)) : List SkuDetail :=
  products.flatMap fun np =>
    np.2.variations.map fun v => { sku_id := v.sku_id, sdata := v.vdata, annot := none }

/-- The `available_ids` set of `_select_available_products`: ids of the
simulation items whose lowered availability equals `"available"`; a
missing or empty id is skipped by the `if original_id:` truthiness
check. -/
def availableIds (items : List SimItem) : List String :=
  items.filterMap fun it =>
    if strToLower (it.availability.getD "") = "available" then
      match it.id with
      | some s => if s = "" then none else some s
      | none => none
    else none

/-- `StockManager._select_available_products`: keeps the flattened entries
whose `sku_id` is in `available_ids` (a `none` sku is never in the set of
strings). -/
def selectAvailableProducts (sim : SimulationResult) (products_details : List SkuDetail) :
    List SkuDetail :=
  products_details.filter fun p =>
    match p.sku_id with
    | some s => (availableIds sim.items).contains s
    | none => false

/-- `StockManager.check_availability_simple` with the cart-simulation
response passed as `sim`: flatten, handle the two empty early returns,
and select the available entries. -/
def checkAvailabilitySimple (products : List (String × Product)) (sim : SimulationResult) :
    List SkuDetail :=
  if products.isEmpty then []
  else
    let products_details := flattenProductsToSkus products
    if products_details.isEmpty then []
    else selectAvailableProducts sim products_details

/-- The `stock_info` dict of `filter_products_with_stock` as a lookup:
built over `products_with_stock` in order, so a later entry with the same
`sku_id` wins; the stored record is the entry's annotation fields with
their `.get` defaults. -/
def stockInfoGet (products_with_stock : List SkuDetail) (k : Option String) : Option StockAnnot :=
  match products_with_stock with
  | [] => none
  | p :: rest =>
    match stockInfoGet rest k with
    | some a => some a
    | none => if p.sku_id = k then some (p.annot.getD {}) else none

/-- `StockManager.filter_products_with_stock`: empty on an empty stock
list; otherwise keeps each product whose variations have an entry in
`stock_info`, updating each kept variation with the recorded annotations,
and drops products with no kept variation. -/
def filterProductsWithStock (products_structured : List (String × Product))
    (products_with_stock : List SkuDetail) : List (String × Product) :=
  if products_with_stock.isEmpty then []
  else
    products_structured.filterMap fun np =>
      let filtered_variations := np.2.variations.filterMap fun v =>
        match stockInfoGet products_with_stock v.sku_id with
        | some a => some { v with annot := some a }
        | none => none
      if filtered_variations.isEmpty then none
      else some (np.1, { np.2 with variations := filtered_variations })

/-- The whole simple-strategy stock pipeline: check availability against
the simulation response, then rebuild the structured products. -/
def simpleStockFilter (products : List (String × Product)) (sim : SimulationResult) :
    List (String × Product) :=
  filterProductsWithStock products (checkAvailabilitySimple products sim)

/-- Modelled from the claim wording: the simulation result contains an
item with exactly this (possibly absent) SKU id whose availability equals
`"available"` case-insensitively. -/
def claimSurvives (sim : SimulationResult) (sku : Option String) : Bool :=
  sim.items.any fun it =>
    it.id == sku && strToLower (it.availability.getD "") == "available"

/-- Survival as the code implements it: the variation has a non-empty SKU
id and some available simulation item carries exactly that id. -/
def variationSurvives (sim : SimulationResult) (sku : Option String) : Bool :=
  match sku with
  | some s =>
    !(s = "") && sim.items.any fun it =>
      it.id == some s && strToLower (it.availability.getD "") == "available"
  | none => false

/-- The simple-strategy pipeline written from the (amended) claim: keep
each product with exactly its surviving variations, each updated with the
recorded stock annotations (all defaults under the simple strategy), and
omit products with no surviving variation. -/
def specSimpleFilter (products : List (String × Product)) (sim : SimulationResult) :
    List (String × Product) :=
  products.filterMap fun np =>
    let fvs := np.2.variations.filterMap fun v =>
      if variationSurvives sim v.sku_id then some { v with annot := some {} } else none
    if fvs.isEmpty then none else some (np.1, { np.2 with variations := fvs })

/-! ## Regionalization plugin (regionalization.py) and VTEXClient.get_region
(client.py, lines 270-313)

The region lookup is modelled by its outcome: `Except.error e` for a
`requests.RequestException` with message `e`, `Except.ok regions` for the
parsed JSON list. A region entry holds its `id` and the `"id"` values of
its seller dicts (each `none` when the key is absent). -/

/-- The message returned for an unserved region. -/
def unservedRegionMsg : String :=
  "We don\x27t serve your region. Please visit our stores in person."

/-- A parsed region entry: `region.get("id")` and the `"id"` of each
entry of `region.get("sellers", [])`. -/
structure RegionEntry where
  id : Option String
  sellers : List (Option String)
deriving DecidableEq

/-- `VTEXClient.get_region` as a function of the lookup outcome: returns
`(region_id, error_message, seller_ids)`. -/
def getRegion (outcome : Except String (List RegionEntry)) :
    Option String × Option String × List (Option String) :=
  match outcome with
  | .error e => (none, some ("Error querying regionalization: " ++ e), [])
  | .ok [] => (none, some unservedRegionMsg, [])
  | .ok (region :: _) =>
    match region.sellers with
    | [] => (none, some unservedRegionMsg, [])
    | s :: rest => (region.id, none, s :: rest)

/-- The SearchContext fields read or written by
`Regionalization.before_search` (`seller_rules` defaults to the empty
dict in `context.py`). -/
structure SearchCtx where
  postal_code : Option String
  delivery_type : Option String
  sellers : List (Option String)
  seller_rules : List (String × List String)
  region_id : Option String
  region_error : Option String
deriving DecidableEq

/-- The Regionalization plugin state used by `before_search`: the rules
it was constructed with and the default seller (the other constructor
fields are not read by `before_search`). -/
structure RegionalizationPlugin where
  seller_rules : List (String × List String)
  default_seller : String
deriving DecidableEq

/-- Python dict lookup on an association list built in insertion order:
a later binding of the same key wins. -/
def dictLookup (rules : List (String × List String)) (k : String) : Option (List String) :=
  match rules with
  | [] => none
  | kv :: rest =>
    match dictLookup rest k with
    | some r => some r
    | none => if kv.1 = k then some kv.2 else none

/-- `Regionalization._apply_seller_rules`: returns the sellers unchanged
unless the rules are non-empty, every seller is a key of the rules, and
the delivery type selects a configured rule list. -/
def applySellerRules (sellers : List (Option String)) (delivery_type : Option String)
    (seller_rules : List (String × List String)) : List (Option String) :=
  if seller_rules.isEmpty then sellers
  else if sellers.all fun s =>
      match s with
      | some x => (dictLookup seller_rules x).isSome
      | none => false then
    if delivery_type = some "Retirada" then
      match dictLookup seller_rules "retirada_sellers" with
      | some l => l.map some
      | none => sellers
    else if delivery_type = some "Entrega" then
      match dictLookup seller_rules "entrega_sellers" with
      | some l => l.map some
      | none => sellers
    else sellers
  else sellers

/-- `Regionalization.before_search` with the region lookup outcome passed
explicitly: default seller without a truthy postal code; otherwise stores
the lookup result, falls back to the default seller on a truthy error,
and finally applies `_apply_seller_rules` with the seller rules taken from
the context (not from the plugin). -/
def beforeSearch (plugin : RegionalizationPlugin) (ctx : SearchCtx)
    (lookup : Except String (List RegionEntry)) : SearchCtx :=
  if !(strTruthy ctx.postal_code) then { ctx with sellers := [some plugin.default_seller] }
  else
    let r := getRegion lookup
    let ctx1 := { ctx with region_id := r.1, region_error := r.2.1 }
    let ctx2 :=
      if strTruthy r.2.1 then { ctx1 with sellers := [some plugin.default_seller] }
      else { ctx1 with sellers := r.2.2 }
    { ctx2 with
      sellers := applySellerRules ctx2.sellers ctx2.delivery_type ctx2.seller_rules }

/-! ## CAPI plugin (capi.py)

The conversion-event POST is modelled by its outcome `httpOk`
(`true` for HTTP 200; `false` covers a non-200 status and a raised
exception, both of which make `send_event` return `False`). A call to
`finalize_result` returns the updated plugin state and the number of
external send calls it issued (0 or 1). -/

/-- The CAPI plugin state read by `finalize_result` and `reset`. -/
structure CAPIPlugin where
  event_type : String
  auto_send : Bool
  only_whatsapp : Bool
  sent : Bool
deriving DecidableEq

/-- The context data `finalize_result` reads: `contact_info["urn"]`,
`contact_info["channel_uuid"]`, and the auth token looked up first in
`credentials` and then in `contact_info`. -/
structure CapiContext where
  contact_urn : Option String
  channel_uuid : Option String
  cred_auth_token : Option String
  contact_auth_token : Option String
deriving DecidableEq

/-- The valid event types of the CAPI plugin. -/
def validEventTypes : List String := ["lead", "purchase"]

/-- The `"whatsapp" in contact_urn.lower()` test of `finalize_result`. -/
def urnHasWhatsapp (urn : Option String) : Bool :=
  hasSub "whatsapp".toList (strToLower (urn.getD "")).toList

/-- Python `context.credentials.get("auth_token") or
context.get_contact("auth_token")`: the credentials value when truthy,
else the contact value. -/
def capiAuthToken (ctx : CapiContext) : Option String :=
  if strTruthy ctx.cred_auth_token then ctx.cred_auth_token else ctx.contact_auth_token

/-- `CAPI.send_event`: refuses (no HTTP call) on missing parameters or an
invalid event type, otherwise issues exactly one POST and succeeds iff
the response status is 200. Returns `(success, number of send calls)`. -/
def sendEvent (auth_token channel_uuid contact_urn : Option String) (event_type : String)
    (httpOk : Bool) : Bool × Nat :=
  if !(strTruthy auth_token && strTruthy channel_uuid && strTruthy contact_urn) then (false, 0)
  else if !(validEventTypes.contains event_type) then (false, 0)
  else (httpOk, 1)

/-- `CAPI.finalize_result` (the state-and-send part; the `result` dict is
passed through, gaining flags only on success): skips when `auto_send` is
off, when `_sent` is set, or when `only_whatsapp` rejects the urn; sets
`_sent` only when the send succeeded. -/
def finalizeResult (p : CAPIPlugin) (ctx : CapiContext) (httpOk : Bool) : CAPIPlugin × Nat :=
  if !p.auto_send then (p, 0)
  else if p.sent then (p, 0)
  else if p.only_whatsapp && strTruthy ctx.contact_urn &&
      !(urnHasWhatsapp ctx.contact_urn) then (p, 0)
  else
    let sr := sendEvent (capiAuthToken ctx) ctx.channel_uuid ctx.contact_urn p.event_type httpOk
    (if sr.1 then { p with sent := true } else p, sr.2)

/-- `CAPI.reset`: clears the `_sent` flag. -/
def capiReset (p : CAPIPlugin) : CAPIPlugin := { p with sent := false }

/-! ## OrderConcierge._convert_cents (orders.py, lines 69-115)

JSON-like Python data with numbers modelled as rationals (Python ints,
floats and bools all satisfy the `isinstance(value, (int, float))`
check); `round(value / 100, 2)` is modelled exactly over the rationals as
round-half-to-even at two decimal places, which for `round(v / 100, 2)`
is the half-even integer rounding of `v` divided by 100. -/

inductive PyData where
  | num (q : ℚ)
  | str (s : String)
  | pynone
  | dict (kvs : List (String × PyData))
  | list (xs : List PyData)

/-- The `currency_fields` list of `_convert_cents`. -/
def currencyFields : List String :=
  ["totalValue", "value", "totals", "itemPrice", "sellingPrice", "price", "listPrice",
   "costPrice", "basePrice", "fixedPrice", "shippingEstimate", "tax", "discount", "total",
   "subtotal", "freight", "marketingData", "paymentData"]

/-- The key test of `_convert_cents`:
`any(field in key.lower() for field in currency_fields)`, a substring
match against the lowered key. -/
def isCurrencyKey (key : String) : Bool :=
  currencyFields.any fun f => hasSub f.toList (strToLower key).toList

/-- Round-half-to-even of a rational to an integer (the rounding used by
Python `round`). -/
def roundHalfEven (x : ℚ) : ℤ :=
  let f := ⌊x⌋
  let r := x - (f : ℚ)
  if r < 1 / 2 then f
  else if 1 / 2 < r then f + 1
  else if f % 2 = 0 then f else f + 1

/-- `round(value / 100, 2)` over the rationals: rounding `v / 100` to two
decimal places is the half-even integer rounding of `v`, divided by
100. -/
def centsRound (v : ℚ) : ℚ := (roundHalfEven v : ℚ) / 100

/-- The numeric-field transformation of `_convert_cents`: divide matching
currency fields by 100 (rounded to 2 places), leave the rest alone. -/
def convCurrencyField (key : String) (q : ℚ) : ℚ :=
  if isCurrencyKey key then centsRound q else q

mutual

/-- `OrderConcierge._convert_cents`. -/
def convertCents : PyData → PyData
  | .dict kvs => .dict (convertDict kvs)
  | .list xs => .list (convertList xs)
  | .num q => .num q
  | .str s => .str s
  | .pynone => .pynone

/-- The dict branch of `_convert_cents`: each entry value is recursed
into when it is a dict or list, converted when it is numeric under a
currency key, and kept otherwise. -/
def convertDict : List (String × PyData) → List (String × PyData)
  | [] => []
  | (k, v) :: rest => (k, convertVal k v) :: convertDict rest

/-- Conversion of one dict entry value under its key. -/
def convertVal (k : String) : PyData → PyData
  | .dict kvs => .dict (convertDict kvs)
  | .list xs => .list (convertList xs)
  | .num q => if isCurrencyKey k then .num (centsRound q) else .num q
  | .str s => .str s
  | .pynone => .pynone

/-- The list branch of `_convert_cents`. -/
def convertList : List PyData → List PyData
  | [] => []
  | x :: rest => convertCents x :: convertList rest

end

mutual

/-- Modelled from the claim wording: the generic structure-preserving
transform that applies `f` to exactly the numeric fields, keyed by their
dict key, and leaves every other value and the whole structure
unchanged. -/
def mapNumFields (f : String → ℚ → ℚ) : PyData → PyData
  | .dict kvs => .dict (mapNumDict f kvs)
  | .list xs => .list (mapNumList f xs)
  | d => d

/-- Dict part of `mapNumFields`. -/
def mapNumDict (f : String → ℚ → ℚ) : List (String × PyData) → List (String × PyData)
  | [] => []
  | (k, v) :: rest => (k, mapNumVal f k v) :: mapNumDict f rest

/-- One dict entry under `mapNumFields`: `f` is applied to a numeric
value keyed `k`; containers are transformed recursively; any other value
is unchanged. -/
def mapNumVal (f : String → ℚ → ℚ) (k : String) : PyData → PyData
  | .num q => .num (f k q)
  | .dict kvs => .dict (mapNumDict f kvs)
  | .list xs => .list (mapNumList f xs)
  | .str s => .str s
  | .pynone => .pynone

/-- List part of `mapNumFields`. -/
def mapNumList (f : String → ℚ → ℚ) : List PyData → List PyData
  | [] => []
  | x :: rest => mapNumFields f x :: mapNumList f rest

end

/-! ## Theorems -/

/-- C2: for every quantity, seller list, per-seller cap and total cap,
`batch_simulation` builds one request item per seller, each requesting
the same quantity `min(min(q * |S|, M) // |S|, m)` when `|S| > 1` and
`min(q, m)` when `|S| <= 1`. -/
theorem batch_simulation_quantity_split (sku_id : String) (quantity : Nat)
    (sellers : List String) (maxPerSeller maxTotal : Nat) :
    ((batchSimulationItems sku_id quantity sellers maxPerSeller maxTotal).map
        (fun it => it.seller) = sellers) ∧
    ∀ it ∈ batchSimulationItems sku_id quantity sellers maxPerSeller maxTotal,
      it.quantity =
        if 1 < sellers.length then
          min (min (quantity * sellers.length) maxTotal / sellers.length) maxPerSeller
        else min quantity maxPerSeller := by
  constructor
  · have aux : ∀ (l : List String) (q : Nat),
        (l.map fun seller => ({ id := sku_id, quantity := q, seller := seller } :
          BatchSimItem)).map (fun it => it.seller) = l := by
      intro l q
      induction l with
      | nil => rfl
      | cons a t ih => simp [ih]
    exact aux sellers _
  · intro it hit
    simp only [batchSimulationItems, List.mem_map] at hit
    obtain ⟨s, _, rfl⟩ := hit
    rfl

/-- Witness for C2 at the spec instance: sellers `[a, b]`, quantity
10000, caps 8000 and 24000 give a per-seller request of 8000. -/
theorem batch_simulation_quantity_split_witness :
    (⟨"sku1", 8000, "a"⟩ : BatchSimItem) ∈
        batchSimulationItems "sku1" 10000 ["a", "b"] 8000 24000 ∧
    (⟨"sku1", 8000, "a"⟩ : BatchSimItem).quantity =
      if 1 < (["a", "b"] : List String).length then
        min (min (10000 * (["a", "b"] : List String).length) 24000 /
          (["a", "b"] : List String).length) 8000
      else min 10000 8000 :=
  ⟨by decide,
   (batch_simulation_quantity_split "sku1" 10000 ["a", "b"] 8000 24000).2 _ (by decide)⟩

/-- C9: for every item list, country and postal code, when the
cart-simulation HTTP call fails with any `requests.RequestException`
(timeout, transport error, non-2xx status), `cart_simulation` hands
exactly `{"items": []}` back to its caller; the model is a total
function, so no exception escapes. -/
theorem cart_simulation_failure_yields_empty_items (items : List Json) (country : String)
    (postal_code : Option String) :
    (cart_simulation items country postal_code none).2 =
      Json.obj [("items", Json.arr [])] :=
  rfl

/-- Counterexample for C8: both endpoints are HTTPS URLs and the base
endpoint's host `a.myvtex.com` ends with the expected suffix, yet
construction fails, because the code tests the suffix of the whole URL
string (here ending in `/shop`), not of its host. -/
theorem vtex_client_init_host_counterexample :
    strStartsWith "https://a.myvtex.com/shop" "https://" = true ∧
    strStartsWith "https://store.example" "https://" = true ∧
    strEndsWith (urlHost "https://a.myvtex.com/shop") "myvtex.com" = true ∧
    vtexClientInit "https://a.myvtex.com/shop" "https://store.example" = none := by
  refine ⟨by decide, by decide, by decide, by decide⟩

/-- Helper: a string starting with `https://` is not empty, so the
explicit empty-string check of `_validate_base_url_and_store_url` is
subsumed by the `startswith` checks. -/
theorem validate_base_url_eq (b s : String) :
    validate_base_url_and_store_url b s =
      (strStartsWith b "https://" && strStartsWith s "https://" &&
       (strEndsWith b ".vtexcommercestable.com.br" || strEndsWith b "myvtex.com")) := by
  unfold validate_base_url_and_store_url
  by_cases hb : b = ""
  · subst hb
    have h1 : strStartsWith "" "https://" = false := by decide
    simp [h1]
  · by_cases hs : s = ""
    · subst hs
      have h2 : strStartsWith "" "https://" = false := by decide
      simp [h2, hb]
    · simp only [hb, hs, if_neg, decide_False, Bool.or_self, Bool.false_or, or_self,
        if_false]
      cases h1 : strStartsWith b "https://" <;>
        cases h2 : strStartsWith s "https://" <;>
          cases h3 : strEndsWith b ".vtexcommercestable.com.br" <;>
            cases h4 : strEndsWith b "myvtex.com" <;>
              simp [h1, h2, h3, h4, hb, hs]

/-- C8 (amended): construction succeeds exactly when, after trailing
slashes are stripped, both endpoints start with `https://` and the base
endpoint URL STRING (not its host) ends with
`.vtexcommercestable.com.br` or `myvtex.com`. -/
theorem vtex_client_init_validation (base_url store_url : String) :
    (vtexClientInit base_url store_url).isSome =
      (strStartsWith (rstripSlashes base_url) "https://" &&
       strStartsWith (rstripSlashes store_url) "https://" &&
       (strEndsWith (rstripSlashes base_url) ".vtexcommercestable.com.br" ||
        strEndsWith (rstripSlashes base_url) "myvtex.com")) := by
  unfold vtexClientInit
  rw [← validate_base_url_eq]
  cases hv : validate_base_url_and_store_url (rstripSlashes base_url) (rstripSlashes store_url) <;>
    simp [hv]

/-- Counterexample for C6: with `incomplete_orders = False` and both
calls succeeding, `get_orders_by_document` still issues the second
(incomplete-orders) request, so the claim that this call happens only
when incomplete orders are requested is false. -/
theorem get_orders_incomplete_call_counterexample :
    (get_orders_by_document "123" false (some ⟨some [], 0⟩) (some ⟨some [], 0⟩)).2 =
      [completeOrdersUrl "123", incompleteOrdersUrl "123" false] ∧
    incompleteOrdersUrl "123" false ≠ completeOrdersUrl "123" :=
  ⟨rfl, by decide⟩

/-- C6 (amended): for a non-empty document, both orders calls are always
issued (the second carrying the `incompleteOrders` flag as a query
parameter); the result list is the concatenation of the two calls'
contributions, a failed call contributing empty while the other side's
results survive, and the other fields of the first body are returned
unchanged. -/
theorem get_orders_by_document_merge (document : String) (incomplete_orders : Bool)
    (r1 r2 : Option OrdersResp) (hdoc : document ≠ "") :
    (get_orders_by_document document incomplete_orders r1 r2).2 =
      [completeOrdersUrl document, incompleteOrdersUrl document incomplete_orders] ∧
    (get_orders_by_document document incomplete_orders r1 r2).1.list.getD [] =
      ordersContribution r1 ++ ordersContribution r2 ∧
    (get_orders_by_document document incomplete_orders r1 r2).1.extra =
      (match r1 with | some a => a.extra | none => 0) := by
  unfold get_orders_by_document
  simp only [if_neg hdoc]
  rcases r1 with _ | a <;> rcases r2 with _ | b
  · simp [ordersContribution]
  · rcases hb : b.list with _ | l2 <;> simp [ordersContribution, hb]
  · simp [ordersContribution]
  · rcases hb : b.list with _ | l2 <;> simp [ordersContribution, hb]

/-- Witness for C6 at a concrete input: one complete order, failed
incomplete call. -/
theorem get_orders_by_document_merge_witness :
    (get_orders_by_document "12345678900" true (some ⟨some [Json.int 1], 2⟩) none).2 =
      [completeOrdersUrl "12345678900", incompleteOrdersUrl "12345678900" true] ∧
    (get_orders_by_document "12345678900" true (some ⟨some [Json.int 1], 2⟩) none).1.list.getD [] =
      ordersContribution (some ⟨some [Json.int 1], 2⟩) ++ ordersContribution none ∧
    (get_orders_by_document "12345678900" true (some ⟨some [Json.int 1], 2⟩) none).1.extra = 2 :=
  get_orders_by_document_merge "12345678900" true (some ⟨some [Json.int 1], 2⟩) none
    (by decide)

/-- A CAPI plugin as configured in the claim: lead event, auto-send,
whatsapp-only, nothing sent yet. -/
def c5Plugin : CAPIPlugin := ⟨"lead", true, true, false⟩

/-- A context with complete contact and credential data. -/
def c5Ctx : CapiContext := ⟨some "whatsapp:5511999999999", some "chan-uuid", some "tok", none⟩

/-- Counterexample for C5: when the send is not acknowledged with HTTP
200 the `_sent` flag is not set, so the second `finalize_result` issues a
second external send call — two calls in total, where the claim promises
exactly one with no send on the second invocation. -/
theorem capi_finalize_double_send_counterexample :
    (finalizeResult c5Plugin c5Ctx false).2 = 1 ∧
    (finalizeResult (finalizeResult c5Plugin c5Ctx false).1 c5Ctx false).2 = 1 := by
  constructor <;> decide

/-- C5 (amended): with auto-send, complete whatsapp contact/credential
data and a FIRST SEND THAT SUCCEEDS (HTTP 200), the first
`finalize_result` issues exactly one send and sets the sent flag, a
second `finalize_result` issues no send regardless of its outcome, and
after `reset` a subsequent `finalize_result` sends again. -/
theorem capi_finalize_once_on_success (p : CAPIPlugin) (ctx : CapiContext) (ok2 ok3 : Bool)
    (hauto : p.auto_send = true) (hsent : p.sent = false)
    (hev : p.event_type ∈ validEventTypes)
    (hurn : strTruthy ctx.contact_urn = true)
    (hchan : strTruthy ctx.channel_uuid = true)
    (htok : strTruthy (capiAuthToken ctx) = true)
    (hwa : urnHasWhatsapp ctx.contact_urn = true) :
    (finalizeResult p ctx true).2 = 1 ∧
    (finalizeResult p ctx true).1.sent = true ∧
    (finalizeResult (finalizeResult p ctx true).1 ctx ok2).2 = 0 ∧
    (finalizeResult (capiReset (finalizeResult p ctx true).1) ctx ok3).2 = 1 := by
  have hfirst : finalizeResult p ctx true = ({ p with sent := true }, 1) := by
    unfold finalizeResult sendEvent
    simp [hauto, hsent, hev, hurn, hchan, htok, hwa]
  refine ⟨by rw [hfirst], by rw [hfirst], ?_, ?_⟩
  · rw [hfirst]
    unfold finalizeResult
    simp [hauto]
  · rw [hfirst]
    unfold finalizeResult sendEvent capiReset
    simp [hauto, hev, hurn, hchan, htok, hwa]

/-- Witness for C5 at the concrete plugin and context above. -/
theorem capi_finalize_once_witness :
    (finalizeResult c5Plugin c5Ctx true).2 = 1 ∧
    (finalizeResult c5Plugin c5Ctx true).1.sent = true ∧
    (finalizeResult (finalizeResult c5Plugin c5Ctx true).1 c5Ctx false).2 = 0 ∧
    (finalizeResult (capiReset (finalizeResult c5Plugin c5Ctx true).1) c5Ctx true).2 = 1 :=
  capi_finalize_once_on_success c5Plugin c5Ctx false true (by decide) (by decide) (by decide)
    (by decide) (by decide) (by decide) (by decide)

/-- C10: `before_search` filters through the seller rules of the
CONTEXT, never those the plugin was constructed with: whenever the
context's `seller_rules` is its empty default, the resulting sellers are
exactly the lookup's seller list — or `[default_seller]` on a truthy
error or missing postal code — for every plugin, including one
constructed with non-empty retirada/entrega rules. -/
theorem before_search_uses_context_rules (p : RegionalizationPlugin) (ctx : SearchCtx)
    (lookup : Except String (List RegionEntry)) (hrules : ctx.seller_rules = []) :
    (beforeSearch p ctx lookup).sellers =
      if strTruthy ctx.postal_code then
        (if strTruthy (getRegion lookup).2.1 then [some p.default_seller]
         else (getRegion lookup).2.2)
      else [some p.default_seller] := by
  unfold beforeSearch
  cases hpc : strTruthy ctx.postal_code
  · simp [hpc]
  · cases her : strTruthy (getRegion lookup).2.1 <;>
      simp [hpc, her, applySellerRules, hrules]

/-- A plugin constructed with non-empty seller rules. -/
def c10Plugin : RegionalizationPlugin := ⟨[("1", []), ("retirada_sellers", ["lojaY"])], "1"⟩

/-- A context with the default empty seller rules, a postal code and a
Retirada delivery type. -/
def c10Ctx : SearchCtx := ⟨some "01310100", some "Retirada", [], [], none, none⟩

/-- Witness for C10: the plugin's retirada rules are ignored and the
region's seller survives unfiltered. -/
theorem before_search_uses_context_rules_witness :
    (beforeSearch c10Plugin c10Ctx (Except.ok [⟨some "r1", [some "s7"]⟩])).sellers =
      [some "s7"] :=
  before_search_uses_context_rules c10Plugin c10Ctx (Except.ok [⟨some "r1", [some "s7"]⟩]) rfl

/-- A plugin with no rules and default seller `"1"`. -/
def c4Plugin : RegionalizationPlugin := ⟨[], "1"⟩

/-- A context whose own `seller_rules` contain the default seller as a
key and a retirada rule, with a Retirada delivery type. -/
def c4Ctx : SearchCtx :=
  ⟨some "01310100", some "Retirada", [], [("1", []), ("retirada_sellers", ["lojaX"])], none, none⟩

/-- Counterexample for C4: on an unserved region the claim promises
`sellers = [default_seller]`, but `_apply_seller_rules` can rewrite the
fallback `["1"]` into the context rules' retirada sellers, so the
resulting sellers are `["lojaX"]` ≠ `["1"]` (the region error is still
set). -/
theorem before_search_unserved_counterexample :
    getRegion (Except.ok []) = (none, some unservedRegionMsg, []) ∧
    strTruthy c4Ctx.postal_code = true ∧
    (beforeSearch c4Plugin c4Ctx (Except.ok [])).sellers = [some "lojaX"] ∧
    [some "lojaX"] ≠ [some c4Plugin.default_seller] := by
  refine ⟨rfl, by decide, by decide, by decide⟩

/-- C4 (amended): when the region lookup yields no region entry, or an
entry with an empty seller list, `get_region` returns an absent region
id, the non-null unserved-region message and an empty seller list; and
for every context with a truthy postal code WHOSE OWN SELLER RULES ARE
THE EMPTY DEFAULT, `before_search` leaves exactly `[default_seller]` and
the non-null region error. -/
theorem get_region_unserved (p : RegionalizationPlugin) (ctx : SearchCtx)
    (lookup : Except String (List RegionEntry))
    (hu : lookup = Except.ok [] ∨
      ∃ r rest, lookup = Except.ok (r :: rest) ∧ r.sellers = []) :
    getRegion lookup = (none, some unservedRegionMsg, []) ∧
    (strTruthy ctx.postal_code = true → ctx.seller_rules = [] →
      (beforeSearch p ctx lookup).sellers = [some p.default_seller] ∧
      (beforeSearch p ctx lookup).region_error = some unservedRegionMsg) := by
  have hgr : getRegion lookup = (none, some unservedRegionMsg, []) := by
    rcases hu with rfl | ⟨r, rest, rfl, hs⟩
    · rfl
    · simp [getRegion, hs]
  have htr : strTruthy (some unservedRegionMsg) = true := by decide
  refine ⟨hgr, fun hpc hrules => ?_⟩
  unfold beforeSearch
  rw [hgr]
  simp [hpc, htr, applySellerRules, hrules]

/-- A context with a postal code and the default empty seller rules. -/
def c4Ctx2 : SearchCtx := ⟨some "04500000", none, [], [], none, none⟩

/-- Witness for C4 at a concrete unserved lookup. -/
theorem get_region_unserved_witness :
    (beforeSearch c4Plugin c4Ctx2 (Except.ok [])).sellers = [some c4Plugin.default_seller] ∧
    (beforeSearch c4Plugin c4Ctx2 (Except.ok [])).region_error = some unservedRegionMsg :=
  (get_region_unserved c4Plugin c4Ctx2 (Except.ok []) (Or.inl rfl)).2 (by decide) rfl

/-- Unfolding equation of the `limit_payload_size` loop. -/
theorem limitPayloadLoop_eq (max_size_kb : Nat) (ps : List (String × Json)) :
    limitPayloadLoop max_size_kb ps =
      if 1024 * max_size_kb < payloadBytes ps ∧ ps.isEmpty = false then
        limitPayloadLoop max_size_kb ps.dropLast
      else ps := by
  rw [limitPayloadLoop]
  exact dite_eq_ite ..

/-- Helper for C3, by induction on a length bound: the loop returns a
front segment of its input, the result is within budget or empty, and an
input already within budget is returned whole. -/
theorem limitPayloadLoop_spec_aux (max_size_kb : Nat) :
    ∀ (n : Nat) (ps : List (String × Json)), ps.length ≤ n →
      (∃ k, limitPayloadLoop max_size_kb ps = ps.take k) ∧
      (payloadBytes (limitPayloadLoop max_size_kb ps) ≤ 1024 * max_size_kb ∨
        limitPayloadLoop max_size_kb ps = []) ∧
      (payloadBytes ps ≤ 1024 * max_size_kb → limitPayloadLoop max_size_kb ps = ps) := by
  intro n
  induction n with
  | zero =>
    intro ps hps
    have hnil : ps = [] := List.length_eq_zero.mp (Nat.le_zero.mp hps)
    subst hnil
    rw [limitPayloadLoop_eq]
    simp
  | succ n ih =>
    intro ps hps
    rw [limitPayloadLoop_eq]
    by_cases hcond : 1024 * max_size_kb < payloadBytes ps ∧ ps.isEmpty = false
    · rw [if_pos hcond]
      have hne : ps ≠ [] := List.isEmpty_eq_false.mp hcond.2
      have hlen : ps.dropLast.length ≤ n := by
        rw [List.length_dropLast]
        have h1 : 0 < ps.length := List.length_pos.mpr hne
        omega
      obtain ⟨⟨k, hk⟩, h2, _⟩ := ih ps.dropLast hlen
      refine ⟨⟨min k (ps.length - 1), ?_⟩, h2, fun hle => absurd hcond.1 (not_lt.mpr hle)⟩
      rw [hk, List.dropLast_eq_take, List.take_take]
    · rw [if_neg hcond]
      refine ⟨⟨ps.length, (List.take_length ps).symm⟩, ?_, fun _ => rfl⟩
      by_cases hlt : 1024 * max_size_kb < payloadBytes ps
      · have hemp : ps.isEmpty ≠ false := fun hf => hcond ⟨hlt, hf⟩
        have : ps = [] := by
          cases h : ps.isEmpty
          · exact absurd h hemp
          · exact List.isEmpty_eq_true.mp h
        exact Or.inr this
      · exact Or.inl (not_lt.mp hlt)

/-- C3: `limit_payload_size` only ever removes whole products from the
tail (the result is a front segment of the input in iteration order),
the serialization of the kept wrapper list never exceeds the byte budget
unless the result is empty, and an input already within budget is
returned with all products intact. -/
theorem limit_payload_size_spec (products : List (String × Json)) (max_size_kb : Nat) :
    (∃ k, limit_payload_size products max_size_kb = products.take k) ∧
    (payloadBytes (limit_payload_size products max_size_kb) ≤ 1024 * max_size_kb ∨
      limit_payload_size products max_size_kb = []) ∧
    (payloadBytes products ≤ 1024 * max_size_kb →
      limit_payload_size products max_size_kb = products) :=
  limitPayloadLoop_spec_aux max_size_kb products.length products le_rfl

/-- Witness for C3 at a one-product input within a 1 KB budget. -/
theorem limit_payload_size_spec_witness :
    payloadBytes [("a", Json.int 1)] ≤ 1024 * 1 ∧
    limit_payload_size [("a", Json.int 1)] 1 = [("a", Json.int 1)] :=
  ⟨by decide, (limit_payload_size_spec [("a", Json.int 1)] 1).2.2 (by decide)⟩

/-- Membership in `available_ids`: exactly the non-empty ids of
available simulation items. -/
theorem availableIdOf_eq_some (it : SimItem) (s : String) :
    ((if strToLower (it.availability.getD "") = "available" then
        match it.id with
        | some t => if t = "" then none else some t
        | none => none
      else none) = some s) ↔
      (strToLower (it.availability.getD "") = "available" ∧ it.id = some s ∧ s ≠ "") := by
  by_cases hav : strToLower (it.availability.getD "") = "available"
  · rw [if_pos hav]
    cases hid : it.id with
    | none => simp [hav]
    | some t =>
      by_cases ht : t = ""
      · subst ht
        simp [hav]
        intro h
        rw [← h]
      · simp only [hav, true_and, if_neg ht]
        constructor
        · intro h
          obtain rfl : t = s := Option.some.inj h
          exact ⟨rfl, ht⟩
        · rintro ⟨h, _⟩
          obtain rfl : t = s := Option.some.inj h
          rfl
  · simp [hav]

/-- Membership in `available_ids`: exactly the non-empty ids of
available simulation items. -/
theorem mem_availableIds (items : List SimItem) (s : String) :
    s ∈ availableIds items ↔
      s ≠ "" ∧ ∃ it ∈ items, it.id = some s ∧
        strToLower (it.availability.getD "") = "available" := by
  unfold availableIds
  rw [List.mem_filterMap]
  constructor
  · rintro ⟨it, hmem, hf⟩
    rw [availableIdOf_eq_some] at hf
    exact ⟨hf.2.2, it, hmem, hf.2.1, hf.1⟩
  · rintro ⟨hs, it, hmem, hid, hav⟩
    exact ⟨it, hmem, (availableIdOf_eq_some it s).mpr ⟨hav, hid, hs⟩⟩

/-- When no entry of `products_with_stock` carries annotation keys (as in
the simple strategy), `stock_info` maps a key to the default annotations
exactly when some entry has that `sku_id`. -/
theorem stockInfoGet_all_none (pws : List SkuDetail) (k : Option String)
    (h : ∀ p ∈ pws, p.annot = none) :
    stockInfoGet pws k =
      if pws.any (fun p => p.sku_id == k) then some {} else none := by
  induction pws with
  | nil => rfl
  | cons p rest ih =>
    have hp : p.annot = none := h p (List.mem_cons_self p rest)
    have hrest : ∀ q ∈ rest, q.annot = none := fun q hq => h q (List.mem_cons_of_mem p hq)
    rw [stockInfoGet, ih hrest, List.any_cons]
    by_cases hany : rest.any (fun q => q.sku_id == k)
    · rw [if_pos hany]
      simp [hany]
    · rw [if_neg hany]
      by_cases hk : p.sku_id = k
      · simp [hk, hp, hany]
      · have : (p.sku_id == k) = false := beq_eq_false_iff_ne.mpr hk
        simp [hk, this, hany]

/-- The two early returns of `check_availability_simple` coincide with
selecting from the flattened list, which is then empty. -/
theorem checkAvailabilitySimple_eq (products : List (String × Product))
    (sim : SimulationResult) :
    checkAvailabilitySimple products sim =
      selectAvailableProducts sim (flattenProductsToSkus products) := by
  unfold checkAvailabilitySimple
  by_cases h1 : products.isEmpty
  · have : products = [] := List.isEmpty_eq_true.mp h1
    subst this
    simp [flattenProductsToSkus, selectAvailableProducts]
  · rw [Bool.not_eq_true] at h1
    rw [if_neg (by simp [h1])]
    by_cases h2 : (flattenProductsToSkus products).isEmpty
    · have hnil : flattenProductsToSkus products = [] := List.isEmpty_eq_true.mp h2
      rw [if_pos (by simp [h2]), hnil]
      rfl
    · rw [Bool.not_eq_true] at h2
      rw [if_neg (by simp [h2])]

/-- Every flattened SKU entry has `annot = none`. -/
theorem flatten_annot_none (products : List (String × Product)) :
    ∀ p ∈ flattenProductsToSkus products, p.annot = none := by
  intro p hp
  unfold flattenProductsToSkus at hp
  rw [List.mem_flatMap] at hp
  obtain ⟨np, _, hmem⟩ := hp
  rw [List.mem_map] at hmem
  obtain ⟨v, _, rfl⟩ := hmem
  rfl

/-- The central characterization: for a variation that actually occurs in
the structured products, the simple pipeline's `stock_info` has an entry
for its SKU exactly when the variation survives, and that entry is the
default annotation record. -/
theorem stockInfoGet_simple (products : List (String × Product)) (sim : SimulationResult)
    (v : Variation) (np : String × Product) (hnp : np ∈ products)
    (hv : v ∈ np.2.variations) :
    stockInfoGet (checkAvailabilitySimple products sim) v.sku_id =
      if variationSurvives sim v.sku_id then some {} else none := by
  rw [checkAvailabilitySimple_eq]
  have hall : ∀ p ∈ selectAvailableProducts sim (flattenProductsToSkus products),
      p.annot = none := by
    intro p hp
    unfold selectAvailableProducts at hp
    rw [List.mem_filter] at hp
    exact flatten_annot_none products p hp.1
  rw [stockInfoGet_all_none _ _ hall]
  suffices hsame :
      (selectAvailableProducts sim (flattenProductsToSkus products)).any
          (fun p => p.sku_id == v.sku_id) =
        variationSurvives sim v.sku_id by rw [hsame]
  cases hvar : variationSurvives sim v.sku_id
  · -- the variation does not survive: no selected entry carries its sku
    rw [Bool.eq_false_iff]
    intro hany
    rw [List.any_eq_true] at hany
    obtain ⟨p, hp, hpk⟩ := hany
    unfold selectAvailableProducts at hp
    rw [List.mem_filter] at hp
    obtain ⟨_, hsel⟩ := hp
    have hpk' : p.sku_id = v.sku_id := by
      exact eq_of_beq hpk
    rw [hpk'] at hsel
    cases hsku : v.sku_id with
    | none => rw [hsku] at hsel; cases hsel
    | some s =>
      rw [hsku] at hsel
      have hs : s ∈ availableIds sim.items := List.elem_iff.mp hsel
      rw [mem_availableIds] at hs
      obtain ⟨hne, it, hit, hid, hav⟩ := hs
      have htrue : variationSurvives sim v.sku_id = true := by
        rw [hsku]
        show (!(decide (s = "")) && sim.items.any fun it =>
          it.id == some s && strToLower (it.availability.getD "") == "available") = true
        rw [Bool.and_eq_true]
        refine ⟨by simp [hne], List.any_eq_true.mpr ⟨it, hit, ?_⟩⟩
        rw [Bool.and_eq_true]
        exact ⟨beq_iff_eq.mpr hid, beq_iff_eq.mpr hav⟩
      rw [hvar] at htrue
      cases htrue
  · -- the variation survives: its own flattened entry is selected
    cases hsku : v.sku_id with
    | none => rw [hsku] at hvar; cases hvar
    | some s =>
      rw [hsku] at hvar
      unfold variationSurvives at hvar
      rw [Bool.and_eq_true] at hvar
      obtain ⟨hne, hany⟩ := hvar
      rw [List.any_eq_true] at hany
      obtain ⟨it, hit, hok⟩ := hany
      rw [Bool.and_eq_true] at hok
      have hid : it.id = some s := beq_iff_eq.mp hok.1
      have hav : strToLower (it.availability.getD "") = "available" := beq_iff_eq.mp hok.2
      have hne' : s ≠ "" := by
        intro hcontra
        rw [hcontra] at hne
        simp at hne
      rw [List.any_eq_true]
      refine ⟨⟨v.sku_id, v.vdata, none⟩, ?_, by rw [hsku]; exact beq_iff_eq.mpr rfl⟩
      unfold selectAvailableProducts
      rw [List.mem_filter]
      constructor
      · unfold flattenProductsToSkus
        rw [List.mem_flatMap]
        exact ⟨np, hnp, List.mem_map.mpr ⟨v, hv, rfl⟩⟩
      · show (match (⟨v.sku_id, v.vdata, none⟩ : SkuDetail).sku_id with
          | some s => (availableIds sim.items).contains s
          | none => false) = true
        rw [show (⟨v.sku_id, v.vdata, none⟩ : SkuDetail).sku_id = some s from hsku]
        exact List.elem_iff.mpr
          (mem_availableIds sim.items s |>.mpr ⟨hne', it, hit, hid, hav⟩)

/-- C1 (amended): the simple-strategy stock pipeline equals the
claim-level description, with survival requiring a NON-EMPTY SKU id
matched by an available simulation item: kept products carry exactly
their surviving variations, each updated with the recorded (default)
stock annotations, and products with no surviving variation are
omitted. -/
theorem simple_stock_filter_spec (products : List (String × Product)) (sim : SimulationResult) :
    simpleStockFilter products sim = specSimpleFilter products sim := by
  unfold simpleStockFilter filterProductsWithStock specSimpleFilter
  by_cases hpws : (checkAvailabilitySimple products sim).isEmpty
  · rw [if_pos hpws]
    have hnil : checkAvailabilitySimple products sim = [] := List.isEmpty_eq_true.mp hpws
    symm
    rw [List.filterMap_eq_nil_iff]
    intro np hnp
    have hfvs : (np.2.variations.filterMap fun v =>
        if variationSurvives sim v.sku_id then some { v with annot := some {} }
        else none) = [] := by
      rw [List.filterMap_eq_nil_iff]
      intro v hv
      have hD := stockInfoGet_simple products sim v np hnp hv
      rw [hnil] at hD
      cases hvar : variationSurvives sim v.sku_id
      · simp
      · rw [hvar] at hD
        simp [stockInfoGet] at hD
    simp only [hfvs]
    simp
  · rw [if_neg (by simp [Bool.not_eq_true] at hpws ⊢; exact hpws)]
    apply List.filterMap_congr
    intro np hnp
    have hinner : np.2.variations.filterMap (fun v =>
        match stockInfoGet (checkAvailabilitySimple products sim) v.sku_id with
        | some a => some { v with annot := some a }
        | none => none) =
      np.2.variations.filterMap (fun v =>
        if variationSurvives sim v.sku_id then some { v with annot := some {} }
        else none) := by
      apply List.filterMap_congr
      intro v hv
      rw [stockInfoGet_simple products sim v np hnp hv]
      cases hvar : variationSurvives sim v.sku_id <;> simp [hvar]
    simp only [hinner]

/-- A product whose only variation carries the empty SKU id. -/
def c1Products : List (String × Product) := [("p", ⟨[⟨some "", 0, none⟩], 0⟩)]

/-- A simulation result marking exactly that (empty) id available. -/
def c1Sim : SimulationResult := ⟨[⟨some "", some "Available"⟩]⟩

/-- Counterexample for C1: the simulation contains an item whose id
equals the variation's SKU id (the empty string) and whose availability
is `"Available"`, so per the claim the variation survives; but the
`if original_id:` truthiness check drops the empty id, and the pipeline
returns no product at all. -/
theorem simple_stock_filter_counterexample :
    claimSurvives c1Sim (some "") = true ∧
    simpleStockFilter c1Products c1Sim = [] := by
  constructor
  · decide
  · decide

mutual

/-- `_convert_cents` applies exactly the per-key numeric currency
transformation, structurally. -/
theorem convertCents_eq_mapNum :
    (d : PyData) → convertCents d = mapNumFields convCurrencyField d
  | .dict kvs => congrArg PyData.dict (convertDict_eq_mapNum kvs)
  | .list xs => congrArg PyData.list (convertList_eq_mapNum xs)
  | .num _ => rfl
  | .str _ => rfl
  | .pynone => rfl

/-- Dict part of `convertCents_eq_mapNum`. -/
theorem convertDict_eq_mapNum :
    (kvs : List (String × PyData)) → convertDict kvs = mapNumDict convCurrencyField kvs
  | [] => rfl
  | (k, v) :: rest => by
    rw [convertDict, mapNumDict]
    exact congrArg₂ (fun a b => (k, a) :: b) (convertVal_eq_mapNum k v)
      (convertDict_eq_mapNum rest)

/-- Entry part of `convertCents_eq_mapNum`. -/
theorem convertVal_eq_mapNum : (k : String) → (v : PyData) →
    convertVal k v = mapNumVal convCurrencyField k v
  | k, .dict kvs => congrArg PyData.dict (convertDict_eq_mapNum kvs)
  | k, .list xs => congrArg PyData.list (convertList_eq_mapNum xs)
  | k, .num q => by
    by_cases h : isCurrencyKey k <;> simp [convertVal, mapNumVal, convCurrencyField, h]
  | _, .str _ => rfl
  | _, .pynone => rfl

/-- List part of `convertCents_eq_mapNum`. -/
theorem convertList_eq_mapNum :
    (xs : List PyData) → convertList xs = mapNumList convCurrencyField xs
  | [] => rfl
  | x :: rest =>
    congrArg₂ List.cons (convertCents_eq_mapNum x) (convertList_eq_mapNum rest)

end

/-- `mapNumFields` preserves the keys of every dict level. -/
theorem mapNumDict_keys (f : String → ℚ → ℚ) :
    (kvs : List (String × PyData)) → (mapNumDict f kvs).map Prod.fst = kvs.map Prod.fst
  | [] => rfl
  | (k, v) :: rest => by
    rw [mapNumDict, List.map_cons, List.map_cons, mapNumDict_keys f rest]

/-- `mapNumFields` preserves the length of every list level. -/
theorem mapNumList_length (f : String → ℚ → ℚ) :
    (xs : List PyData) → (mapNumList f xs).length = xs.length
  | [] => rfl
  | _ :: rest => congrArg Nat.succ (mapNumList_length f rest)

/-- C7: `_convert_cents` equals the structure-preserving transform that
applies `round(v / 100, 2)` to exactly the numeric fields whose key
matches a currency-field name (the code's match is a case-insensitive
substring test), leaves every other numeric field and every non-numeric
leaf unchanged, and `mapNumFields` itself preserves dict keys and list
lengths at every level. -/
theorem convert_cents_spec :
    (∀ d, convertCents d = mapNumFields convCurrencyField d) ∧
    (∀ f kvs, (mapNumDict f kvs).map Prod.fst = kvs.map Prod.fst) ∧
    (∀ f xs, (mapNumList f xs).length = xs.length) :=
  ⟨convertCents_eq_mapNum, fun f kvs => mapNumDict_keys f kvs,
   fun f xs => mapNumList_length f xs⟩

end WeniUtils
